import Mathlib

/-!
Verification of the rollback-networking core of `P2POnBevy` (src/src/main.rs)
against its natural-language specification.

Shallow embedding conventions:
* `f32` values are modelled as exact rationals (`ℚ`); every arithmetic
  operation appearing in the verified claims (integer subtraction, casts of
  -1/0/1, multiplication by 200, addition of `vel * SPU`) is modelled by the
  corresponding exact operation.
* `u8` values are modelled as `Nat`; only bits 0..7 are ever produced and
  only bits 0..3 are ever read.
* Bevy ECS queries over rollback entities become explicit `List.map` over a
  list of `RollbackEntity` records; a Bevy system is a pure function from
  the world (plus its input resources) to the world.
* Fallible operations (`assert!`, `unwrap()`) become `Option`: `none` models
  a panic / aborted startup.
* `std::net::SocketAddr` parsing is standard-library code outside this
  repository; it is kept abstract as a function `String → Option SockAddr`
  supplied as an argument, so every theorem about startup holds for any
  parser behaviour.
-/

/-- `const PLAYER_SPEED: f32 = 200.` (main.rs line 15). -/
def PLAYER_SPEED : ℚ := 200

/-- `const UPS: f32 = 60.` (main.rs line 16), ticks per second. -/
def UPS : ℚ := 60

/-- `static SPU: f32 = 1. / UPS` (main.rs line 17), seconds per tick. -/
def SPU : ℚ := 1 / UPS

/-- `struct InputPacked { wasd: u8 }` (main.rs lines 26-30). -/
structure InputPacked where
  wasd : Nat
  deriving DecidableEq, Repr

/-- `struct Velocity { x: f32, y: f32 }` (main.rs lines 33-37). -/
structure Velocity where
  x : ℚ
  y : ℚ
  deriving DecidableEq, Repr

/-- `struct Player { id: usize }` (main.rs lines 39-42). -/
structure Player where
  id : Nat
  deriving DecidableEq, Repr

/-- Bevy `Vec3`, modelled with exact rational coordinates. -/
structure Vec3 where
  x : ℚ
  y : ℚ
  z : ℚ
  deriving DecidableEq, Repr

/-- Bevy `Quat`, modelled with exact rational coordinates. -/
structure Quat where
  qx : ℚ
  qy : ℚ
  qz : ℚ
  qw : ℚ
  deriving DecidableEq, Repr

/-- Bevy `Transform`: translation, rotation, scale. -/
structure Transform where
  translation : Vec3
  rotation : Quat
  scale : Vec3
  deriving DecidableEq, Repr

/-- One entity matched by the rollback queries of `handle_players` and
`velocity_system`: it carries `Transform`, `Velocity` and `Player`
components and the `Rollback` marker. -/
structure RollbackEntity where
  transform : Transform
  velocity : Velocity
  player : Player
  deriving DecidableEq, Repr

/-- The keyboard state read by `read_local_inputs`: whether each of the four
arrow keys is currently pressed (`input.pressed(KeyCode::Arrow...)`). -/
structure KeyboardState where
  up : Bool
  down : Bool
  right : Bool
  left : Bool
  deriving DecidableEq, Repr

/-- The per-player input encoder inside `read_local_inputs`
(main.rs lines 52-56): packs the four pressed-flags into bits 0..3 of the
`wasd` byte, `up | down << 1 | right << 2 | left << 3`. -/
def read_local_inputs (k : KeyboardState) : InputPacked :=
  ⟨k.up.toNat ||| (k.down.toNat <<< 1) ||| (k.right.toNat <<< 2) ||| (k.left.toNat <<< 3)⟩

/-- The bit extraction used by `handle_players` (main.rs lines 70-71):
`(wasd >> k) & 1`. -/
def wasdBit (wasd k : Nat) : Nat :=
  (wasd >>> k) &&& 1

/-- The decoder implicit in `handle_players`: recover the four per-axis
intents from bits 0..3 of the `wasd` byte. -/
def decode_intents (s : InputPacked) : KeyboardState :=
  ⟨wasdBit s.wasd 0 == 1, wasdBit s.wasd 1 == 1,
   wasdBit s.wasd 2 == 1, wasdBit s.wasd 3 == 1⟩

/-- The velocity `handle_players` (main.rs lines 70-71) assigns to a player
whose input byte is `wasd`:
`vel.y = ((wasd >> 0) & 1 - (wasd >> 1) & 1) * PLAYER_SPEED`,
`vel.x = ((wasd >> 2) & 1 - (wasd >> 3) & 1) * PLAYER_SPEED`. -/
def handle_players_vel (wasd : Nat) : Velocity :=
  { y := ((wasdBit wasd 0 : Int) - (wasdBit wasd 1 : Int) : Int) * PLAYER_SPEED
    x := ((wasdBit wasd 2 : Int) - (wasdBit wasd 3 : Int) : Int) * PLAYER_SPEED }

/-- `handle_players` (main.rs lines 63-73): for every rollback entity, look
up the input of `player.id` in the `PlayerInputs` resource and overwrite the
`Velocity` component. `PlayerInputs` is modelled as a total map from player
handle to `InputPacked` (in ggrs it holds one entry per player handle, and
every spawned `Player.id` is a valid handle). -/
def handle_players (inputs : Nat → InputPacked) (w : List RollbackEntity) :
    List RollbackEntity :=
  w.map (fun e => { e with velocity := handle_players_vel (inputs e.player.id).wasd })

/-- `velocity_system` (main.rs lines 75-80): for every rollback entity,
`translation.x += vel.x * SPU; translation.y += vel.y * SPU`. -/
def velocity_system (w : List RollbackEntity) : List RollbackEntity :=
  w.map (fun e =>
    { e with transform :=
        { e.transform with translation :=
            { e.transform.translation with
                x := e.transform.translation.x + e.velocity.x * SPU
                y := e.transform.translation.y + e.velocity.y * SPU } } })

/-- One invocation of the `GgrsSchedule` systems (main.rs line 163):
`handle_players` followed by `velocity_system` (`.after(handle_players)`). -/
def tickStep (inputs : Nat → InputPacked) (w : List RollbackEntity) :
    List RollbackEntity :=
  velocity_system (handle_players inputs w)

/-- `std::net::SocketAddr`: an IP endpoint. Its internal structure is
irrelevant here (parsing is standard-library code kept abstract); two fields
give it decidable equality and concrete inhabitants for witnesses. -/
structure SockAddr where
  ip : Nat
  port : Nat
  deriving DecidableEq, Repr

/-- `ggrs::PlayerType` as used in `main` (main.rs lines 139, 143): a local
player or a remote player at a socket address. -/
inductive PlayerTypeM where
  | localPlayer : PlayerTypeM
  | remotePlayer : SockAddr → PlayerTypeM
  deriving DecidableEq, Repr

/-- One iteration of the player-registration loop in `main`
(main.rs lines 136-145): `"localhost"` registers a local player, any other
entry is parsed as a socket address (`none` = the `unwrap()` panic on an
unparsable entry) and registers a remote player. -/
def registerEntry (parse : String → Option SockAddr) (e : String) :
    Option PlayerTypeM :=
  if e = "localhost" then some PlayerTypeM.localPlayer
  else (parse e).map PlayerTypeM.remotePlayer

/-- The whole registration loop of `main` (main.rs lines 136-145), in list
order: entry at index `i` becomes the player at handle `i`; the first
unparsable entry aborts startup (`none`). -/
def buildPlayers (parse : String → Option SockAddr) :
    List String → Option (List PlayerTypeM)
  | [] => some []
  | e :: rest =>
    match registerEntry parse e with
    | none => none
    | some pt => (buildPlayers parse rest).map (pt :: ·)

/-- The session configuration assembled by `main` (main.rs lines 125-148):
player count, maximum prediction window, and the ordered player
registrations (handle = index). -/
structure SessionConfig where
  numPlayers : Nat
  maxPredictionWindow : Nat
  players : List PlayerTypeM
  deriving DecidableEq, Repr

/-- The startup path of `main` (main.rs lines 125-148):
`assert!(players_num > 0)` (failure = `none`), then a `SessionBuilder` with
`with_num_players(players_num)` and `with_max_prediction_window(12)`, then
the registration loop. Socket binding and session start are I/O and add no
further configuration. -/
def mainSession (parse : String → Option SockAddr) (players : List String) :
    Option SessionConfig :=
  if players.length > 0 then
    (buildPlayers parse players).map
      (fun regs => ⟨players.length, 12, regs⟩)
  else none

/-- `Session<Config>` (bevy_ggrs): one of three variants. Each ggrs session
type stores the player count it was configured with.
Modelled from the spec: the ggrs library's `SyncTestSession`, `P2PSession`
and `SpectatorSession` and their `num_players()` accessors are library code
outside this repository; per the spec, "`num_players()` returns the
configured player count regardless of mode", so each variant carries its
configured count. -/
inductive GgrsSession where
  | syncTest : Nat → GgrsSession
  | p2p : Nat → GgrsSession
  | spectator : Nat → GgrsSession
  deriving DecidableEq, Repr

/-- The `match &*session` in `setup` (main.rs lines 88-92), calling
`num_players()` on whichever variant the session is. -/
def sessionNumPlayers : GgrsSession → Nat
  | .syncTest n => n
  | .p2p n => n
  | .spectator n => n

/-- The spawn translation in `setup` (main.rs line 101):
`x = (100isize - 100isize * players_num + 200isize * i) as f32`. -/
def spawnTranslation (n i : Nat) : Vec3 :=
  ⟨((100 - 100 * (n : Int) + 200 * (i : Int) : Int) : ℚ), 0, 0⟩

/-- The player-spawning loop of `setup` (main.rs lines 96-112): for
`i in 0..players_num`, spawn a rollback entity with the computed transform,
zero `Velocity` and `Player { id: i }`. Mesh, material and the (non-rollback)
camera are rendering glue outside the model; `Transform` defaults to
identity rotation and unit scale. -/
def setup (session : GgrsSession) : List RollbackEntity :=
  (List.range (sessionNumPlayers session)).map (fun i =>
    { transform := { translation := spawnTranslation (sessionNumPlayers session) i
                     rotation := ⟨0, 0, 0, 1⟩
                     scale := ⟨1, 1, 1⟩ }
      velocity := { x := 0, y := 0 }
      player := { id := i } })

/-- `.set_rollback_schedule_fps(UPS as usize)` (main.rs line 156): the
rollback schedule rate, in ticks per second, cast from the `UPS` constant
(`as usize` truncates toward zero). -/
def rollbackScheduleFps : Nat := (⌊UPS⌋).toNat

/-- `Time::<Fixed>::from_hz(UPS as f64)` (main.rs line 161): the
fixed-timestep clock frequency, in Hz, from the same `UPS` constant. -/
def fixedTimeHz : ℚ := UPS

/-- A stand-in for a `SocketAddr` parser that accepts every string: used to
instantiate the abstract parser in concrete witnesses. -/
def parseAll : String → Option SockAddr := fun _ => some ⟨0, 0⟩

/-- A stand-in for a `SocketAddr` parser that accepts exactly one address
string: used to instantiate the abstract parser in concrete witnesses. -/
def parseOne : String → Option SockAddr :=
  fun s => if s = "9.9.9.9:99" then some ⟨9999, 99⟩ else none

/-- A concrete input frame for witnesses: every player holds up+right. -/
def demoInputs : Nat → InputPacked := fun _ => ⟨5⟩

/-- A concrete one-entity world for witnesses. -/
def demoWorld : List RollbackEntity :=
  [{ transform := { translation := ⟨0, 0, 0⟩
                    rotation := ⟨0, 0, 0, 1⟩
                    scale := ⟨1, 1, 1⟩ }
     velocity := { x := 0, y := 0 }
     player := { id := 0 } }]

/-- Helper: a successful registration loop registers one player per entry. -/
theorem buildPlayers_length (parse : String → Option SockAddr) :
    ∀ entries regs, buildPlayers parse entries = some regs →
      regs.length = entries.length := by
  intro entries
  induction entries with
  | nil => intro regs h; simp [buildPlayers] at h; simp [← h]
  | cons e rest ih =>
    intro regs h
    simp only [buildPlayers] at h
    cases hreg : registerEntry parse e with
    | none => rw [hreg] at h; simp at h
    | some pt =>
      rw [hreg] at h
      cases hrest : buildPlayers parse rest with
      | none => rw [hrest] at h; simp at h
      | some regs0 =>
        rw [hrest] at h
        simp only [Option.map_some', Option.some_inj] at h
        subst h
        simp [ih regs0 hrest]

/-- Helper: a successful startup has `numPlayers` = length of the list. -/
theorem mainSession_numPlayers (parse : String → Option SockAddr)
    (players : List String) (cfg : SessionConfig)
    (h : mainSession parse players = some cfg) :
    cfg.numPlayers = players.length := by
  simp only [mainSession] at h
  split at h
  · cases hb : buildPlayers parse players with
    | none => rw [hb] at h; simp at h
    | some regs => rw [hb] at h; simp at h; simp [← h]
  · simp at h

/-- Helper: a successful startup has the prediction window fixed at 12. -/
theorem mainSession_window (parse : String → Option SockAddr)
    (players : List String) (cfg : SessionConfig)
    (h : mainSession parse players = some cfg) :
    cfg.maxPredictionWindow = 12 := by
  simp only [mainSession] at h
  split at h
  · cases hb : buildPlayers parse players with
    | none => rw [hb] at h; simp at h
    | some regs => rw [hb] at h; simp at h; simp [← h]
  · simp at h

/-- Helper: the registration loop maps entry `i` to the player at handle
`i` through `registerEntry`. -/
theorem buildPlayers_registerEntry (parse : String → Option SockAddr) :
    ∀ (entries : List String) (regs : List PlayerTypeM),
      buildPlayers parse entries = some regs →
      ∀ i (hi : i < entries.length) (hi' : i < regs.length),
        registerEntry parse (entries.get ⟨i, hi⟩) = some (regs.get ⟨i, hi'⟩) := by
  intro entries
  induction entries with
  | nil => intro regs h i hi hi'; exact absurd hi (Nat.not_lt_zero i)
  | cons e rest ih =>
    intro regs h i hi hi'
    simp only [buildPlayers] at h
    cases hreg : registerEntry parse e with
    | none => rw [hreg] at h; simp at h
    | some pt =>
      rw [hreg] at h
      cases hrest : buildPlayers parse rest with
      | none => rw [hrest] at h; simp at h
      | some regs0 =>
        rw [hrest] at h
        simp only [Option.map_some', Option.some_inj] at h
        subst h
        cases i with
        | zero => simpa using hreg
        | succ j =>
          simpa using ih regs0 hrest j (Nat.lt_of_succ_lt_succ hi)
            (Nat.lt_of_succ_lt_succ hi')

/-- Helper: an entry that is neither the local marker nor parsable aborts
the registration loop. -/
theorem buildPlayers_abort (parse : String → Option SockAddr) :
    ∀ entries : List String,
      (∃ e ∈ entries, e ≠ "localhost" ∧ parse e = none) →
      buildPlayers parse entries = none := by
  intro entries
  induction entries with
  | nil => intro h; simp at h
  | cons e rest ih =>
    intro h
    rcases h with ⟨x, hx, hne, hparse⟩
    simp only [List.mem_cons] at hx
    cases hx with
    | inl hxe =>
      subst hxe
      simp [buildPlayers, registerEntry, hne, hparse]
    | inr hxr =>
      have hrest : buildPlayers parse rest = none := ih ⟨x, hxr, hne, hparse⟩
      simp only [buildPlayers]
      cases registerEntry parse e with
      | none => rfl
      | some pt => rw [hrest]; rfl

/-- Helper: each bit extracted from the input byte is 0 or 1. -/
theorem wasdBit_zero_or_one (w k : Nat) : wasdBit w k = 0 ∨ wasdBit w k = 1 := by
  simp only [wasdBit, Nat.and_one_is_mod]
  omega

/-- C1: Input codec round-trip — decoding (bits 0..3, as `handle_players`
extracts them) the `InputPacked` produced by the `read_local_inputs` encoder
recovers exactly the original four per-axis intents. -/
theorem input_codec_round_trip :
    ∀ u d r l : Bool, decode_intents (read_local_inputs ⟨u, d, r, l⟩) = ⟨u, d, r, l⟩ := by
  decide

/-- C7: Unused input bits are zero — for every keyboard state the encoder
sets at most bits 0..3 of the `wasd` byte, so `wasd < 16`. -/
theorem read_local_inputs_lt_sixteen :
    ∀ u d r l : Bool, (read_local_inputs ⟨u, d, r, l⟩).wasd < 16 := by
  decide

/-- C2: Determinism of the simulation step — one `GgrsSchedule` invocation
(`handle_players` then `velocity_system`) run twice from equal prior states
with equal `PlayerInputs` frames yields equal resulting states; the step is
a pure function of (inputs, prior state) with no ambient dependence. -/
theorem tickStep_deterministic (inputs inputs' : Nat → InputPacked)
    (w w' : List RollbackEntity)
    (hi : inputs = inputs') (hw : w = w') :
    tickStep inputs w = tickStep inputs' w' := by
  rw [hi, hw]

/-- Witness for C2 at a concrete input frame and world. -/
theorem tickStep_deterministic_witness :
    tickStep demoInputs demoWorld = tickStep demoInputs demoWorld :=
  tickStep_deterministic demoInputs demoInputs demoWorld demoWorld rfl rfl

/-- C3 counterexample: the prediction window of the built session is the
constant 12 — here evaluated for two different concrete sessions — and the
startup path takes no RTT measurement at all, contradicting the claim that
the window is a function of RTT samples rather than a constant. -/
theorem prediction_window_is_constant :
    (mainSession parseAll ["localhost"]).map SessionConfig.maxPredictionWindow
      = some 12 ∧
    (mainSession parseAll ["localhost", "10.0.0.1:9000"]).map
        SessionConfig.maxPredictionWindow = some 12 := by
  constructor <;> rfl

/-- C3 (amended): the prediction window of every successfully built session
is the fixed constant 12 (`with_max_prediction_window(12)`), independent of
any RTT measurement. -/
theorem prediction_window_fixed_twelve (parse : String → Option SockAddr)
    (players : List String) (cfg : SessionConfig)
    (h : mainSession parse players = some cfg) :
    cfg.maxPredictionWindow = 12 :=
  mainSession_window parse players cfg h

/-- Witness for the amended C3 at a concrete one-player session. -/
theorem prediction_window_fixed_twelve_witness :
    (⟨1, 12, [PlayerTypeM.localPlayer]⟩ : SessionConfig).maxPredictionWindow = 12 :=
  prediction_window_fixed_twelve parseAll ["localhost"] _ rfl

/-- C4: `num_players()` is the same value in all three session variants and
equals the number of entries in the configured player list, and `setup`
spawns exactly that many player entities with `Player.id` taking each value
`0..players_num-1` exactly once (in order). -/
theorem setup_spawns_num_players (parse : String → Option SockAddr)
    (players : List String) (cfg : SessionConfig)
    (h : mainSession parse players = some cfg) :
    sessionNumPlayers (.syncTest cfg.numPlayers) = players.length ∧
    sessionNumPlayers (.p2p cfg.numPlayers) = players.length ∧
    sessionNumPlayers (.spectator cfg.numPlayers) = players.length ∧
    setup (.syncTest cfg.numPlayers) = setup (.p2p cfg.numPlayers) ∧
    setup (.spectator cfg.numPlayers) = setup (.p2p cfg.numPlayers) ∧
    (setup (.p2p cfg.numPlayers)).length = players.length ∧
    (setup (.p2p cfg.numPlayers)).map (fun e => e.player.id)
      = List.range players.length := by
  have hn : cfg.numPlayers = players.length :=
    mainSession_numPlayers parse players cfg h
  refine ⟨hn, hn, hn, rfl, rfl, by simp [setup, sessionNumPlayers, hn], ?_⟩
  simp only [setup, sessionNumPlayers, hn, List.map_map]
  exact List.map_id _

/-- Witness for C4 at a concrete one-player session. -/
theorem setup_spawns_num_players_witness :
    (setup (.p2p (⟨1, 12, [PlayerTypeM.localPlayer]⟩ : SessionConfig).numPlayers)).map
        (fun e => e.player.id) = List.range 1 :=
  (setup_spawns_num_players parseAll ["localhost"] _ rfl).2.2.2.2.2.2

/-- C5: session creation requires a nonempty player list — an empty list
makes `main` abort at the assertion and no session is created; otherwise a
created session is configured with `num_players` equal to the number of
entries. -/
theorem main_requires_players (parse : String → Option SockAddr)
    (players : List String) :
    (players = [] → mainSession parse players = none) ∧
    ∀ cfg, mainSession parse players = some cfg →
      cfg.numPlayers = players.length := by
  constructor
  · intro h
    subst h
    rfl
  · intro cfg h
    exact mainSession_numPlayers parse players cfg h

/-- Witness for C5: the empty list aborts; `["localhost"]` gives one player. -/
theorem main_requires_players_witness :
    mainSession parseAll [] = none ∧
    (⟨1, 12, [PlayerTypeM.localPlayer]⟩ : SessionConfig).numPlayers
      = (["localhost"] : List String).length :=
  ⟨(main_requires_players parseAll []).1 rfl,
   (main_requires_players parseAll ["localhost"]).2 _ rfl⟩

/-- C6: every entry at index `i` of the player list becomes the player at
handle `i` — a local player exactly when the entry is the `"localhost"`
marker, otherwise a remote player at the parsed socket address — and an
entry that is neither the marker nor parsable aborts startup. -/
theorem peer_list_interpretation (parse : String → Option SockAddr)
    (entries : List String) :
    (∀ regs, buildPlayers parse entries = some regs →
      regs.length = entries.length ∧
      ∀ i (hi : i < entries.length) (hi' : i < regs.length),
        (entries.get ⟨i, hi⟩ = "localhost" →
          regs.get ⟨i, hi'⟩ = PlayerTypeM.localPlayer) ∧
        (entries.get ⟨i, hi⟩ ≠ "localhost" →
          ∃ a, parse (entries.get ⟨i, hi⟩) = some a ∧
            regs.get ⟨i, hi'⟩ = PlayerTypeM.remotePlayer a)) ∧
    ((∃ e ∈ entries, e ≠ "localhost" ∧ parse e = none) →
      buildPlayers parse entries = none) := by
  constructor
  · intro regs h
    refine ⟨buildPlayers_length parse entries regs h, ?_⟩
    intro i hi hi'
    have hre := buildPlayers_registerEntry parse entries regs h i hi hi'
    constructor
    · intro hloc
      rw [hloc] at hre
      simp only [registerEntry] at hre
      rw [if_pos trivial] at hre
      exact (Option.some_inj.mp hre).symm
    · intro hne
      simp only [registerEntry, if_neg hne] at hre
      cases hp : parse (entries.get ⟨i, hi⟩) with
      | none => rw [hp] at hre; simp at hre
      | some a =>
        rw [hp] at hre
        simp only [Option.map_some', Option.some_inj] at hre
        exact ⟨a, rfl, hre.symm⟩
  · exact buildPlayers_abort parse entries

/-- Witness for C6 at a concrete two-entry list: the marker entry becomes
the local player at handle 0 and the address entry the remote player at
handle 1; with the same parser, an unparsable entry aborts. -/
theorem peer_list_interpretation_witness :
    ([PlayerTypeM.localPlayer, PlayerTypeM.remotePlayer ⟨9999, 99⟩] :
        List PlayerTypeM).length
      = (["localhost", "9.9.9.9:99"] : List String).length ∧
    buildPlayers parseOne ["localhost", "1.2.3.4:5"] = none :=
  ⟨((peer_list_interpretation parseOne ["localhost", "9.9.9.9:99"]).1 _ rfl).1,
   (peer_list_interpretation parseOne ["localhost", "1.2.3.4:5"]).2
     ⟨"1.2.3.4:5", by simp, by decide, rfl⟩⟩

/-- C8: the rollback schedule rate and the fixed-timestep clock are both
configured from the same constant `UPS = 60`, and one invocation of
`velocity_system` advances each entity by exactly its velocity scaled by
`SPU = 1/UPS`. -/
theorem fixed_tick_rate :
    rollbackScheduleFps = 60 ∧
    fixedTimeHz = UPS ∧ fixedTimeHz = 60 ∧
    SPU = 1 / UPS ∧ SPU * UPS = 1 ∧
    ∀ w : List RollbackEntity,
      (velocity_system w).map
          (fun e => (e.transform.translation.x, e.transform.translation.y))
        = w.map (fun e => (e.transform.translation.x + e.velocity.x * SPU,
                           e.transform.translation.y + e.velocity.y * SPU)) := by
  have hfloor : rollbackScheduleFps = 60 := by
    have h60 : ⌊UPS⌋ = (60 : Int) := by norm_num [UPS]
    show (⌊UPS⌋).toNat = 60
    rw [h60]
    rfl
  refine ⟨hfloor, rfl,
          by norm_num [fixedTimeHz, UPS], rfl,
          by norm_num [SPU, UPS], ?_⟩
  intro w
  simp [velocity_system, List.map_map, Function.comp]

/-- C9: `handle_players` computes velocity from the input bits by
`vel.y = (bit 0 − bit 1) · 200` and `vel.x = (bit 2 − bit 3) · 200`; each
component is one of {−200, 0, 200}, and opposing directions pressed
together cancel to 0. -/
theorem velocity_from_input_bits (wasd : Nat) :
    (handle_players_vel wasd).y
      = ((wasdBit wasd 0 : Int) - (wasdBit wasd 1 : Int) : Int) * 200 ∧
    (handle_players_vel wasd).x
      = ((wasdBit wasd 2 : Int) - (wasdBit wasd 3 : Int) : Int) * 200 ∧
    ((handle_players_vel wasd).y = -200 ∨ (handle_players_vel wasd).y = 0 ∨
      (handle_players_vel wasd).y = 200) ∧
    ((handle_players_vel wasd).x = -200 ∨ (handle_players_vel wasd).x = 0 ∨
      (handle_players_vel wasd).x = 200) ∧
    (wasdBit wasd 0 = 1 → wasdBit wasd 1 = 1 → (handle_players_vel wasd).y = 0) ∧
    (wasdBit wasd 2 = 1 → wasdBit wasd 3 = 1 → (handle_players_vel wasd).x = 0) := by
  refine ⟨by simp [handle_players_vel, PLAYER_SPEED],
          by simp [handle_players_vel, PLAYER_SPEED], ?_, ?_, ?_, ?_⟩
  · rcases wasdBit_zero_or_one wasd 0 with h0 | h0 <;>
      rcases wasdBit_zero_or_one wasd 1 with h1 | h1 <;>
      simp [handle_players_vel, PLAYER_SPEED, h0, h1]
  · rcases wasdBit_zero_or_one wasd 2 with h2 | h2 <;>
      rcases wasdBit_zero_or_one wasd 3 with h3 | h3 <;>
      simp [handle_players_vel, PLAYER_SPEED, h2, h3]
  · intro h0 h1
    simp [handle_players_vel, h0, h1]
  · intro h2 h3
    simp [handle_players_vel, h2, h3]

/-- Witness for C9 at `wasd = 15` (all four directions pressed): both
opposing pairs cancel and both velocity components are 0. -/
theorem velocity_from_input_bits_witness :
    (handle_players_vel 15).y = 0 ∧ (handle_players_vel 15).x = 0 :=
  ⟨(velocity_from_input_bits 15).2.2.2.2.1 (by decide) (by decide),
   (velocity_from_input_bits 15).2.2.2.2.2 (by decide) (by decide)⟩

/-- C10: frame condition — `velocity_system` changes only `translation.x`
and `translation.y` (preserving `translation.z`, rotation, scale,
`Velocity` and `Player`), `handle_players` changes only `Velocity`
(preserving `Transform` and `Player`), and neither creates or removes
entities. -/
theorem per_tick_frame_condition (inputs : Nat → InputPacked)
    (w : List RollbackEntity) :
    (velocity_system w).length = w.length ∧
    (handle_players inputs w).length = w.length ∧
    (velocity_system w).map
        (fun e => (e.transform.translation.z, e.transform.rotation,
                   e.transform.scale, e.velocity, e.player))
      = w.map (fun e => (e.transform.translation.z, e.transform.rotation,
                         e.transform.scale, e.velocity, e.player)) ∧
    (handle_players inputs w).map (fun e => (e.transform, e.player))
      = w.map (fun e => (e.transform, e.player)) := by
  refine ⟨by simp [velocity_system], by simp [handle_players], ?_, ?_⟩
  · simp [velocity_system, List.map_map, Function.comp]
  · simp [handle_players, List.map_map, Function.comp]
